import Mathlib

/-!
Verification of the C header `Sources/BinarySpec.h` of kennytm/BinarySpec.swift.

The header defines three inline C helpers:

* `BinarySpec_createNonBlockingSocket(family, type)` — calls `socket(family, type, 0)`,
  then `fcntl(sck, F_SETFL, O_NONBLOCK | fcntl(sck, F_GETFL))`, closing the socket and
  returning `-1` if that `F_SETFL` call fails, then two best-effort `setsockopt` calls
  (`SO_REUSEADDR`, `SO_NOSIGPIPE`) whose results are ignored, and finally returns the
  descriptor.
* `fcntl0(fd, option)` — returns `fcntl(fd, option)`.
* `fcntl1(fd, option, value)` — returns `fcntl(fd, option, value)`.

We give a shallow embedding. The kernel's descriptor table is an association list from
descriptor numbers to descriptor records.  The outcomes of the OS calls (which descriptor
`socket` allocates or whether it fails, whether each `fcntl`/`setsockopt` step succeeds)
are not determined by the C code, so they are supplied by an environment `Env`: one record
of OS choices per call.  Every function threads the descriptor table explicitly and also
returns the sequence of system calls it performed, so that claims about "no further OS
call" and about the `protocol` argument are statable.

C `int` values that are used as bit patterns (the file status flag word) are modelled as
natural numbers below `2^32`; the `-1` returned by a failed `fcntl(F_GETFL)` has the
32-bit two's-complement pattern `2^32 - 1`, which is what the C expression
`O_NONBLOCK | fcntl(sck, F_GETFL)` combines with bitwise or.  Constants take their
Darwin values (the header imports Foundation and uses `SO_NOSIGPIPE`, so it targets
Apple platforms): `F_GETFL = 3`, `F_SETFL = 4`, `O_NONBLOCK = 0x0004`,
`SOL_SOCKET = 0xffff`, `SO_REUSEADDR = 0x0004`, `SO_NOSIGPIPE = 0x1022`.
-/

/-- Darwin `F_GETFL` command code. -/
def F_GETFL : Int := 3

/-- Darwin `F_SETFL` command code. -/
def F_SETFL : Int := 4

/-- Darwin `O_NONBLOCK` flag (bit 2). -/
def O_NONBLOCK : Nat := 4

/-- Darwin `SOL_SOCKET` level. -/
def SOL_SOCKET : Int := 0xffff

/-- Darwin `SO_REUSEADDR` option. -/
def SO_REUSEADDR : Int := 0x0004

/-- Darwin `SO_NOSIGPIPE` option. -/
def SO_NOSIGPIPE : Int := 0x1022

/-- The 32-bit two's-complement bit pattern of a C `int` value. -/
def toBits32 (i : Int) : Nat := (i % (2 ^ 32 : Int)).toNat

/-- The kernel-side record for one open descriptor: its file status flag word
(a 32-bit pattern) and the two socket options the header touches. -/
structure Descriptor where
  statusFlags : Nat
  reuseAddr : Bool
  noSigPipe : Bool
deriving DecidableEq, Repr

/-- The kernel descriptor table: an association list from open descriptor
numbers to their records.  A descriptor number is open iff it has an entry. -/
structure OSState where
  fds : List (Nat × Descriptor)
deriving DecidableEq, Repr

/-- Look up the record of a descriptor number, `none` if it is not open. -/
def OSState.lookupFD (s : OSState) (fd : Nat) : Option Descriptor :=
  (s.fds.find? (fun p => p.1 = fd)).map (·.2)

/-- Whether a descriptor number is open. -/
def OSState.isOpen (s : OSState) (fd : Nat) : Bool :=
  (s.lookupFD fd).isSome

/-- Replace the record of an already-open descriptor number. -/
def OSState.setFD (s : OSState) (fd : Nat) (d : Descriptor) : OSState :=
  ⟨s.fds.map (fun p => if p.1 = fd then (fd, d) else p)⟩

/-- Remove a descriptor number from the table. -/
def OSState.closeFD (s : OSState) (fd : Nat) : OSState :=
  ⟨s.fds.filter (fun p => p.1 ≠ fd)⟩

/-- The number of open descriptors. -/
def OSState.openCount (s : OSState) : Nat := s.fds.length

/-- One system call, as recorded in an execution trace. -/
inductive Sys where
  | socket (family type protocol : Int)
  | fcntl (fd : Int) (cmd : Int) (arg : Option Nat)
  | setsockopt (fd : Int) (level optname : Int)
  | close (fd : Int)
deriving DecidableEq, Repr

/-- The OS's choices for one call of `BinarySpec_createNonBlockingSocket` (and for
direct `fcntl` calls through the wrappers): whether `socket` succeeds and which fresh
descriptor number it allocates, the initial flag word of that descriptor, and whether
each subsequent configuration call succeeds.  `otherFcntl` gives the return value of
`fcntl` commands other than `F_GETFL`/`F_SETFL` (used only by the wrappers). -/
structure Env where
  sockResult : Option Nat
  initFlags : Nat
  getflOk : Bool
  setflOk : Bool
  reuseAddrOk : Bool
  noSigPipeOk : Bool
  otherFcntl : Int → Int → Option Nat → Int

/-- The environment allocates only descriptor numbers that are not already open. -/
def Env.Fresh (env : Env) (s : OSState) : Prop :=
  ∀ fd, env.sockResult = some fd → s.lookupFD fd = none

/-- The `socket(family, type, protocol)` call: on success (as chosen by the
environment) a fresh descriptor with flag word `env.initFlags` and both socket
options clear is added to the table and its number returned; on failure it
returns `-1` and leaves the table unchanged. -/
def socketSys (env : Env) (family type protocol : Int) (s : OSState) : Int × OSState :=
  match env.sockResult with
  | none => (-1, s)
  | some fd => ((fd : Int), ⟨(fd, ⟨env.initFlags, false, false⟩) :: s.fds⟩)

/-- The `fcntl` call.  `arg` is the optional third argument, as a 32-bit pattern.
On a closed or negative descriptor it returns `-1`.  `F_GETFL` returns the flag
word when the environment lets it succeed, `-1` otherwise.  `F_SETFL` stores the
given pattern as the new flag word when the environment lets it succeed and
returns `0`, else returns `-1` without changing the table.  Other commands
return whatever the environment says and do not touch the modelled state. -/
def fcntlSys (env : Env) (fd : Int) (cmd : Int) (arg : Option Nat) (s : OSState) :
    Int × OSState :=
  if fd < 0 then (-1, s) else
  match s.lookupFD fd.toNat with
  | none => (-1, s)
  | some d =>
    if cmd = F_GETFL then
      (if env.getflOk then (d.statusFlags : Int) else -1, s)
    else if cmd = F_SETFL then
      match arg with
      | none => (-1, s)
      | some v =>
        if env.setflOk then (0, s.setFD fd.toNat { d with statusFlags := v }) else (-1, s)
    else
      (env.otherFcntl fd cmd arg, s)

/-- The `setsockopt(fd, level, optname, &yes, sizeof yes)` call with a nonzero value:
when `ok` (the environment's choice for this step) and the arguments name one of the
two modelled options, it sets that option on the descriptor and returns `0`;
otherwise it returns `-1` and leaves the table unchanged. -/
def setsockoptSys (ok : Bool) (fd : Int) (level optname : Int) (s : OSState) :
    Int × OSState :=
  if fd < 0 then (-1, s) else
  match s.lookupFD fd.toNat with
  | none => (-1, s)
  | some d =>
    if ok then
      if level = SOL_SOCKET ∧ optname = SO_REUSEADDR then
        (0, s.setFD fd.toNat { d with reuseAddr := true })
      else if level = SOL_SOCKET ∧ optname = SO_NOSIGPIPE then
        (0, s.setFD fd.toNat { d with noSigPipe := true })
      else (-1, s)
    else (-1, s)

/-- The `close(fd)` call: removes an open descriptor from the table. -/
def closeSys (fd : Int) (s : OSState) : Int × OSState :=
  if fd < 0 then (-1, s) else
  if s.isOpen fd.toNat then (0, s.closeFD fd.toNat) else (-1, s)

/-- Line-by-line embedding of the C function

```c
static inline int BinarySpec_createNonBlockingSocket(int family, int type) {
    int sck = socket(family, type, 0);
    if (sck < 0) {
        return -1;
    }
    int res = fcntl(sck, F_SETFL, O_NONBLOCK | fcntl(sck, F_GETFL));
    if (res < 0) {
        close(sck);
        return -1;
    }
    int yes = 1;
    setsockopt(sck, SOL_SOCKET, SO_REUSEADDR, &yes, sizeof(yes));
    setsockopt(sck, SOL_SOCKET, SO_NOSIGPIPE, &yes, sizeof(yes));
    return sck;
}
```

returning the C return value, the final descriptor table, and the trace of system
calls performed, in order.  Note that the inner `fcntl(sck, F_GETFL)` result is not
checked on its own: its value (the pattern of `-1` on failure) is bitwise-or'ed with
`O_NONBLOCK` and passed to `F_SETFL`; only the `F_SETFL` return is tested. -/
def BinarySpec_createNonBlockingSocket (env : Env) (family type : Int) (s₀ : OSState) :
    Int × OSState × List Sys :=
  let r₁ := socketSys env family type 0 s₀
  let sck := r₁.1
  let s₁ := r₁.2
  if sck < 0 then
    (-1, s₁, [Sys.socket family type 0])
  else
    let g := fcntlSys env sck F_GETFL none s₁
    let arg := O_NONBLOCK ||| toBits32 g.1
    let r₂ := fcntlSys env sck F_SETFL (some arg) g.2
    let res := r₂.1
    let s₂ := r₂.2
    if res < 0 then
      let c := closeSys sck s₂
      (-1, c.2,
        [Sys.socket family type 0, Sys.fcntl sck F_GETFL none,
         Sys.fcntl sck F_SETFL (some arg), Sys.close sck])
    else
      let o₁ := setsockoptSys env.reuseAddrOk sck SOL_SOCKET SO_REUSEADDR s₂
      let o₂ := setsockoptSys env.noSigPipeOk sck SOL_SOCKET SO_NOSIGPIPE o₁.2
      (sck, o₂.2,
        [Sys.socket family type 0, Sys.fcntl sck F_GETFL none,
         Sys.fcntl sck F_SETFL (some arg),
         Sys.setsockopt sck SOL_SOCKET SO_REUSEADDR,
         Sys.setsockopt sck SOL_SOCKET SO_NOSIGPIPE])

/-- Embedding of `static inline int fcntl0(int fd, int option) { return fcntl(fd, option); }`:
the `fcntl` syscall invoked with no third argument. -/
def fcntl0 (env : Env) (fd option : Int) (s : OSState) : Int × OSState :=
  fcntlSys env fd option none s

/-- Embedding of `static inline int fcntl1(int fd, int option, int value)
{ return fcntl(fd, option, value); }`: the `fcntl` syscall invoked with the
pattern of `value` as third argument. -/
def fcntl1 (env : Env) (fd option value : Int) (s : OSState) : Int × OSState :=
  fcntlSys env fd option (some (toBits32 value)) s
/-- The value the C expression `O_NONBLOCK | fcntl(sck, F_GETFL)` passes to `F_SETFL`
on a freshly created descriptor, as a function of whether the `F_GETFL` step
succeeds. -/
def setflArg (env : Env) : Nat :=
  O_NONBLOCK ||| toBits32 (if env.getflOk then (env.initFlags : Int) else -1)


/-- A concrete environment in which every OS step succeeds and `socket`
allocates descriptor 3 with initial flag word 2. -/
def envAllOk : Env := ⟨some 3, 2, true, true, true, true, fun _ _ _ => -1⟩

/-- A concrete environment in which the OS `socket` call fails. -/
def envNoSock : Env := ⟨none, 0, true, true, true, true, fun _ _ _ => -1⟩

/-- A concrete environment in which `socket` succeeds (descriptor 3) but the
`F_SETFL` step fails. -/
def envNoSetfl : Env := ⟨some 3, 2, true, false, true, true, fun _ _ _ => -1⟩

/-- A concrete environment in which `socket` succeeds (descriptor 3), the
`F_GETFL` step fails, and the `F_SETFL` step succeeds. -/
def envNoGetfl : Env := ⟨some 3, 2, false, true, true, true, fun _ _ _ => -1⟩

/-- A concrete environment in which `socket` and `F_SETFL` succeed but both
best-effort `setsockopt` steps fail. -/
def envOptsFail : Env := ⟨some 3, 2, true, true, false, false, fun _ _ _ => -1⟩

/-- A concrete one-descriptor table: descriptor 0 open with flag word 1. -/
def table1 : OSState := ⟨[(0, ⟨1, false, false⟩)]⟩

lemma lookupFD_cons_self (fd : Nat) (d : Descriptor) (l : List (Nat × Descriptor)) :
    OSState.lookupFD ⟨(fd, d) :: l⟩ fd = some d := by
  simp [OSState.lookupFD, List.find?]

lemma not_mem_of_lookupFD_none (s : OSState) (fd : Nat) (h : s.lookupFD fd = none) :
    ∀ p ∈ s.fds, p.1 ≠ fd := by
  intro p hp
  unfold OSState.lookupFD at h
  cases hf : s.fds.find? (fun p => p.1 = fd) with
  | none =>
    have := List.find?_eq_none.mp hf p hp
    simpa using this
  | some q => rw [hf] at h; simp at h

lemma setFD_cons_fresh (fd : Nat) (d₀ d : Descriptor) (l : List (Nat × Descriptor))
    (h : ∀ p ∈ l, p.1 ≠ fd) :
    OSState.setFD ⟨(fd, d₀) :: l⟩ fd d = ⟨(fd, d) :: l⟩ := by
  have hmap : ∀ p ∈ l, (if p.1 = fd then (fd, d) else p) = id p := by
    intro p hp
    simp [h p hp]
  simp [OSState.setFD, List.map_congr_left hmap]

lemma closeFD_cons_fresh (fd : Nat) (d₀ : Descriptor) (l : List (Nat × Descriptor))
    (h : ∀ p ∈ l, p.1 ≠ fd) :
    OSState.closeFD ⟨(fd, d₀) :: l⟩ fd = ⟨l⟩ := by
  unfold OSState.closeFD
  congr 1
  rw [List.filter_cons_of_neg (by simp), List.filter_eq_self.mpr]
  intro p hp
  simpa using h p hp

lemma socketSys_some (env : Env) (family type protocol : Int) (s : OSState) (fd : Nat)
    (h : env.sockResult = some fd) :
    socketSys env family type protocol s =
      ((fd : Int), ⟨(fd, ⟨env.initFlags, false, false⟩) :: s.fds⟩) := by
  simp [socketSys, h]

lemma fcntlSys_getfl (env : Env) (fd : Nat) (s : OSState) (d : Descriptor)
    (h : s.lookupFD fd = some d) :
    fcntlSys env (fd : Int) F_GETFL none s =
      (if env.getflOk then (d.statusFlags : Int) else -1, s) := by
  simp [fcntlSys, h]

lemma fcntlSys_setfl (env : Env) (fd : Nat) (s : OSState) (d : Descriptor) (v : Nat)
    (h : s.lookupFD fd = some d) :
    fcntlSys env (fd : Int) F_SETFL (some v) s =
      (if env.setflOk then (0, s.setFD fd { d with statusFlags := v }) else (-1, s)) := by
  have hnn : ¬ ((fd : Int) < 0) := by simp
  simp [fcntlSys, hnn, h, F_GETFL, F_SETFL]

lemma setsockoptSys_reuse (ok : Bool) (fd : Nat) (s : OSState) (d : Descriptor)
    (h : s.lookupFD fd = some d) :
    setsockoptSys ok (fd : Int) SOL_SOCKET SO_REUSEADDR s =
      (if ok then (0, s.setFD fd { d with reuseAddr := true }) else (-1, s)) := by
  have hnn : ¬ ((fd : Int) < 0) := by simp
  simp [setsockoptSys, hnn, h, SOL_SOCKET, SO_REUSEADDR, SO_NOSIGPIPE]

lemma setsockoptSys_nosigpipe (ok : Bool) (fd : Nat) (s : OSState) (d : Descriptor)
    (h : s.lookupFD fd = some d) :
    setsockoptSys ok (fd : Int) SOL_SOCKET SO_NOSIGPIPE s =
      (if ok then (0, s.setFD fd { d with noSigPipe := true }) else (-1, s)) := by
  have hnn : ¬ ((fd : Int) < 0) := by simp
  simp [setsockoptSys, hnn, h, SOL_SOCKET, SO_REUSEADDR, SO_NOSIGPIPE]

lemma closeSys_of_open (fd : Nat) (s : OSState) (h : s.isOpen fd = true) :
    closeSys (fd : Int) s = (0, s.closeFD fd) := by
  have hnn : ¬ ((fd : Int) < 0) := by simp
  simp [closeSys, hnn, h]

/-- Characterization of the execution in which the OS `socket` call fails. -/
lemma create_sockFail (env : Env) (family type : Int) (s : OSState)
    (h : env.sockResult = none) :
    BinarySpec_createNonBlockingSocket env family type s =
      (-1, s, [Sys.socket family type 0]) := by
  simp [BinarySpec_createNonBlockingSocket, socketSys, h]

/-- Characterization of the execution in which `socket` succeeds and the
`F_SETFL` step fails. -/
lemma create_setflFail (env : Env) (family type : Int) (s : OSState) (fd : Nat)
    (hfd : env.sockResult = some fd) (hfresh : env.Fresh s)
    (hset : env.setflOk = false) :
    BinarySpec_createNonBlockingSocket env family type s =
      (-1, s,
        [Sys.socket family type 0, Sys.fcntl (fd : Int) F_GETFL none,
         Sys.fcntl (fd : Int) F_SETFL (some (setflArg env)),
         Sys.close (fd : Int)]) := by
  have hlk : s.lookupFD fd = none := hfresh fd hfd
  have hne := not_mem_of_lookupFD_none s fd hlk
  have hcons := lookupFD_cons_self fd ⟨env.initFlags, false, false⟩ s.fds
  have hnn : ¬ ((fd : Int) < 0) := by simp
  simp only [BinarySpec_createNonBlockingSocket,
    socketSys_some env family type 0 s fd hfd, if_neg hnn,
    fcntlSys_getfl env fd _ _ hcons, fcntlSys_setfl env fd _ _ _ hcons,
    hset, if_false, setflArg]
  norm_num
  rw [closeSys_of_open fd _ (by simp [OSState.isOpen, hcons]),
    closeFD_cons_fresh fd _ _ hne]

/-- Characterization of the successful execution: `socket` succeeds and the
`F_SETFL` step succeeds (whether or not `F_GETFL` and the two `setsockopt`
steps succeed). -/
lemma create_success (env : Env) (family type : Int) (s : OSState) (fd : Nat)
    (hfd : env.sockResult = some fd) (hfresh : env.Fresh s)
    (hset : env.setflOk = true) :
    BinarySpec_createNonBlockingSocket env family type s =
      ((fd : Int),
       ⟨(fd, ⟨setflArg env, env.reuseAddrOk, env.noSigPipeOk⟩) :: s.fds⟩,
        [Sys.socket family type 0, Sys.fcntl (fd : Int) F_GETFL none,
         Sys.fcntl (fd : Int) F_SETFL (some (setflArg env)),
         Sys.setsockopt (fd : Int) SOL_SOCKET SO_REUSEADDR,
         Sys.setsockopt (fd : Int) SOL_SOCKET SO_NOSIGPIPE]) := by
  have hlk : s.lookupFD fd = none := hfresh fd hfd
  have hne := not_mem_of_lookupFD_none s fd hlk
  have hcons := lookupFD_cons_self fd ⟨env.initFlags, false, false⟩ s.fds
  have hnn : ¬ ((fd : Int) < 0) := by simp
  simp only [BinarySpec_createNonBlockingSocket,
    socketSys_some env family type 0 s fd hfd, if_neg hnn,
    fcntlSys_getfl env fd _ _ hcons, fcntlSys_setfl env fd _ _ _ hcons,
    hset, if_true]
  rw [setFD_cons_fresh fd _ _ _ hne]
  norm_num [setflArg]
  have hsetfd : ∀ d₀ d, OSState.setFD ⟨(fd, d₀) :: s.fds⟩ fd d = ⟨(fd, d) :: s.fds⟩ :=
    fun d₀ d => setFD_cons_fresh fd d₀ d s.fds hne
  cases hra : env.reuseAddrOk <;> cases hnp : env.noSigPipeOk <;>
    simp [setsockoptSys_reuse, setsockoptSys_nosigpipe, lookupFD_cons_self, hsetfd]

lemma lookupFD_cons_ne (fd fd' : Nat) (d : Descriptor) (l : List (Nat × Descriptor))
    (h : fd' ≠ fd) :
    OSState.lookupFD ⟨(fd, d) :: l⟩ fd' = OSState.lookupFD ⟨l⟩ fd' := by
  simp [OSState.lookupFD, List.find?, Ne.symm h]

lemma toBits32_natCast (n : Nat) (h : n < 2 ^ 32) : toBits32 (n : Int) = n := by
  unfold toBits32
  omega

lemma toBits32_neg_one : toBits32 (-1) = 2 ^ 32 - 1 := by decide

lemma testBit_lt_32 (x i : Nat) (h : x < 2 ^ 32) (hi : x.testBit i = true) : i < 32 := by
  by_contra hc
  push_neg at hc
  have := Nat.testBit_eq_false_of_lt
    (lt_of_lt_of_le h (Nat.pow_le_pow_right (by norm_num) hc))
  simp [this] at hi

lemma setflArg_testBit_two (env : Env) : (setflArg env).testBit 2 = true := by
  unfold setflArg
  rw [Nat.testBit_lor, show O_NONBLOCK.testBit 2 = true by decide, Bool.true_or]

lemma setflArg_preserves (env : Env) (h32 : env.initFlags < 2 ^ 32) (i : Nat)
    (hi : env.initFlags.testBit i = true) : (setflArg env).testBit i = true := by
  unfold setflArg
  rw [Nat.testBit_lor]
  cases hg : env.getflOk with
  | true =>
    rw [if_pos rfl, toBits32_natCast env.initFlags h32]
    simp [hi]
  | false =>
    rw [if_neg (by simp), toBits32_neg_one, Nat.testBit_two_pow_sub_one]
    simp [testBit_lt_32 env.initFlags i h32 hi]

lemma fresh_table1 (env : Env) (h : env.sockResult = some 3) : env.Fresh table1 := by
  intro fd hfd
  rw [h] at hfd
  injection hfd with hfd
  subst hfd
  decide

lemma fresh_empty (env : Env) : env.Fresh ⟨[]⟩ :=
  fun _ _ => rfl

/-- C1: every execution of `BinarySpec_createNonBlockingSocket` that returns an error
(a negative value) leaves the descriptor table exactly as it was before the call: any
descriptor created before the failure has been closed again before the return, and
the open-descriptor count equals its value before the call. -/
theorem create_error_no_descriptor_leak (env : Env) (family type : Int) (s : OSState)
    (hfresh : env.Fresh s)
    (herr : (BinarySpec_createNonBlockingSocket env family type s).1 < 0) :
    (BinarySpec_createNonBlockingSocket env family type s).2.1 = s ∧
    ((BinarySpec_createNonBlockingSocket env family type s).2.1).openCount
      = s.openCount := by
  cases hsr : env.sockResult with
  | none =>
    rw [create_sockFail env family type s hsr]
    exact ⟨rfl, rfl⟩
  | some fd =>
    cases hset : env.setflOk with
    | true =>
      rw [create_success env family type s fd hsr hfresh hset] at herr
      exact absurd herr (by simp)
    | false =>
      rw [create_setflFail env family type s fd hsr hfresh hset]
      exact ⟨rfl, rfl⟩

/-- Witness for C1: the concrete failing configuration step on a one-entry table. -/
theorem create_error_no_descriptor_leak_witness :
    envNoSetfl.Fresh table1 ∧
    (BinarySpec_createNonBlockingSocket envNoSetfl 2 1 table1).1 < 0 ∧
    ((BinarySpec_createNonBlockingSocket envNoSetfl 2 1 table1).2.1 = table1 ∧
     ((BinarySpec_createNonBlockingSocket envNoSetfl 2 1 table1).2.1).openCount
       = table1.openCount) :=
  ⟨fresh_table1 envNoSetfl rfl, by decide,
   create_error_no_descriptor_leak envNoSetfl 2 1 table1 (fresh_table1 envNoSetfl rfl)
     (by decide)⟩

/-- C3 counterexample: in the execution where the flag-read (`F_GETFL`) step fails
but the flag-write (`F_SETFL`) step succeeds, the function does not close the
descriptor and does not return an error: it returns descriptor 3, which is still
open afterwards.  The read failure is invisible because the code tests only the
`F_SETFL` return value; the read's `-1` result is or-ed into the written value. -/
theorem create_getfl_fail_not_detected :
    (BinarySpec_createNonBlockingSocket envNoGetfl 2 1 ⟨[]⟩).1 = 3 ∧
    ((BinarySpec_createNonBlockingSocket envNoGetfl 2 1 ⟨[]⟩).2.1).isOpen 3 = true := by
  decide

/-- C3 (amended): for every execution in which the flag-write (`F_SETFL`) step fails
after the socket was created, the function closes the descriptor and returns the
error value `-1`, leaving the table as before the call.  A failure of the flag-read
(`F_GETFL`) step alone is not detected (see the counterexample); it leads to an error
return only when the subsequent `F_SETFL` step also fails. -/
theorem create_setfl_fail_closes (env : Env) (family type : Int) (s : OSState) (fd : Nat)
    (hfd : env.sockResult = some fd) (hfresh : env.Fresh s)
    (hset : env.setflOk = false) :
    (BinarySpec_createNonBlockingSocket env family type s).1 = -1 ∧
    ((BinarySpec_createNonBlockingSocket env family type s).2.1).isOpen fd = false ∧
    (BinarySpec_createNonBlockingSocket env family type s).2.1 = s := by
  rw [create_setflFail env family type s fd hfd hfresh hset]
  refine ⟨rfl, ?_, rfl⟩
  simp [OSState.isOpen, hfresh fd hfd]

/-- Witness for the amended C3: descriptor 3 is created and closed again. -/
theorem create_setfl_fail_closes_witness :
    envNoSetfl.sockResult = some 3 ∧ envNoSetfl.Fresh table1 ∧ envNoSetfl.setflOk = false ∧
    ((BinarySpec_createNonBlockingSocket envNoSetfl 2 1 table1).1 = -1 ∧
     ((BinarySpec_createNonBlockingSocket envNoSetfl 2 1 table1).2.1).isOpen 3 = false ∧
     (BinarySpec_createNonBlockingSocket envNoSetfl 2 1 table1).2.1 = table1) :=
  ⟨rfl, fresh_table1 envNoSetfl rfl, rfl,
   create_setfl_fail_closes envNoSetfl 2 1 table1 3 rfl (fresh_table1 envNoSetfl rfl) rfl⟩

/-- C7: if the OS `socket` call fails, the function immediately returns the error
value `-1` while holding no resource: the descriptor table is unchanged (nothing was
created, nothing closed) and the trace is exactly the one `socket(family, type, 0)`
call — no close and no further OS call. -/
theorem create_creation_failure_immediate (env : Env) (family type : Int) (s : OSState)
    (h : env.sockResult = none) :
    BinarySpec_createNonBlockingSocket env family type s
      = (-1, s, [Sys.socket family type 0]) :=
  create_sockFail env family type s h

/-- Witness for C7: a concrete failed `socket` call on a one-entry table. -/
theorem create_creation_failure_immediate_witness :
    envNoSock.sockResult = none ∧
    BinarySpec_createNonBlockingSocket envNoSock 2 1 table1
      = (-1, table1, [Sys.socket 2 1 0]) :=
  ⟨rfl, create_creation_failure_immediate envNoSock 2 1 table1 rfl⟩

/-- C9: `fcntl0` and `fcntl1` are exact thin wrappers around the `fcntl` syscall:
each returns precisely the result (return value and descriptor-table state) of the
underlying syscall at the corresponding arguments, with no other effect on any
state. -/
theorem fcntl_wrappers_exact (env : Env) (fd option value : Int) (s : OSState) :
    fcntl0 env fd option s = fcntlSys env fd option none s ∧
    fcntl1 env fd option value s = fcntlSys env fd option (some (toBits32 value)) s :=
  ⟨rfl, rfl⟩

/-- C10: the first system call of every execution of
`BinarySpec_createNonBlockingSocket` is `socket(family, type, 0)`: the protocol
argument is the constant `0`, and the two-parameter signature gives the caller no
way to select a protocol. -/
theorem create_protocol_always_zero (env : Env) (family type : Int) (s : OSState) :
    ((BinarySpec_createNonBlockingSocket env family type s).2.2).head?
      = some (Sys.socket family type 0) := by
  simp only [BinarySpec_createNonBlockingSocket]
  split
  · rfl
  · split
    · rfl
    · rfl

/-- C2: on every successful call the new descriptor's final flag word is exactly the
value the `F_GETFL` read produced with `O_NONBLOCK` or-ed in — a read-modify-write of
the flag word, not an overwrite: when the read succeeds the word is
`O_NONBLOCK ||| initFlags`, every flag bit that was set at creation is still set,
and the `O_NONBLOCK` bit is set. -/
theorem create_success_flag_rmw (env : Env) (family type : Int) (s : OSState)
    (hfresh : env.Fresh s) (h32 : env.initFlags < 2 ^ 32)
    (hok : 0 ≤ (BinarySpec_createNonBlockingSocket env family type s).1) :
    ∃ d, ((BinarySpec_createNonBlockingSocket env family type s).2.1).lookupFD
        (BinarySpec_createNonBlockingSocket env family type s).1.toNat = some d ∧
      d.statusFlags
        = O_NONBLOCK ||| toBits32 (if env.getflOk then (env.initFlags : Int) else -1) ∧
      (env.getflOk = true → d.statusFlags = O_NONBLOCK ||| env.initFlags) ∧
      (∀ i, env.initFlags.testBit i = true → d.statusFlags.testBit i = true) ∧
      d.statusFlags.testBit 2 = true := by
  cases hsr : env.sockResult with
  | none =>
    rw [create_sockFail env family type s hsr] at hok
    exact absurd hok (by norm_num)
  | some fd =>
    cases hset : env.setflOk with
    | false =>
      rw [create_setflFail env family type s fd hsr hfresh hset] at hok
      exact absurd hok (by norm_num)
    | true =>
      rw [create_success env family type s fd hsr hfresh hset]
      refine ⟨⟨setflArg env, env.reuseAddrOk, env.noSigPipeOk⟩,
        lookupFD_cons_self fd _ s.fds, rfl, ?_, ?_, setflArg_testBit_two env⟩
      · intro hg
        unfold setflArg
        rw [hg, if_pos rfl, toBits32_natCast env.initFlags h32]
      · intro i hi
        exact setflArg_preserves env h32 i hi

/-- Witness for C2: the all-success environment on a one-entry table. -/
theorem create_success_flag_rmw_witness :
    envAllOk.Fresh table1 ∧ envAllOk.initFlags < 2 ^ 32 ∧
    0 ≤ (BinarySpec_createNonBlockingSocket envAllOk 2 1 table1).1 ∧
    (∃ d, ((BinarySpec_createNonBlockingSocket envAllOk 2 1 table1).2.1).lookupFD
        (BinarySpec_createNonBlockingSocket envAllOk 2 1 table1).1.toNat = some d ∧
      d.statusFlags
        = O_NONBLOCK ||| toBits32 (if envAllOk.getflOk then (envAllOk.initFlags : Int) else -1) ∧
      (envAllOk.getflOk = true → d.statusFlags = O_NONBLOCK ||| envAllOk.initFlags) ∧
      (∀ i, envAllOk.initFlags.testBit i = true → d.statusFlags.testBit i = true) ∧
      d.statusFlags.testBit 2 = true) :=
  ⟨fresh_table1 envAllOk rfl, by decide, by decide,
   create_success_flag_rmw envAllOk 2 1 table1 (fresh_table1 envAllOk rfl)
     (by decide) (by decide)⟩

/-- C4 counterexample: a creation failure (`socket` fails) and a configuration
failure (`F_SETFL` fails) produce the identical return value `-1`: the caller cannot
tell the two failure kinds apart from the returned value, and the return value
carries no OS error code. -/
theorem create_errors_indistinguishable :
    (BinarySpec_createNonBlockingSocket envNoSock 2 1 ⟨[]⟩).1
      = (BinarySpec_createNonBlockingSocket envNoSetfl 2 1 ⟨[]⟩).1 ∧
    (BinarySpec_createNonBlockingSocket envNoSock 2 1 ⟨[]⟩).1 = -1 := by
  decide

/-- C4 (amended): the function signals both failure kinds with the single return
value `-1`: a failed `socket` step and a failed `F_SETFL` step both make the call
return `-1`, so the two kinds are not distinguishable from the returned value, and
the OS error code is not part of the returned value (it is only in `errno`). -/
theorem create_failures_return_minus_one (env env' : Env)
    (family type family' type' : Int) (s s' : OSState) (fd : Nat)
    (h : env.sockResult = none)
    (hfd : env'.sockResult = some fd) (hfresh' : env'.Fresh s')
    (hset' : env'.setflOk = false) :
    (BinarySpec_createNonBlockingSocket env family type s).1 = -1 ∧
    (BinarySpec_createNonBlockingSocket env' family' type' s').1 = -1 := by
  rw [create_sockFail env family type s h,
    create_setflFail env' family' type' s' fd hfd hfresh' hset']
  exact ⟨rfl, rfl⟩

/-- Witness for the amended C4: one concrete failure of each kind. -/
theorem create_failures_return_minus_one_witness :
    envNoSock.sockResult = none ∧
    envNoSetfl.sockResult = some 3 ∧ envNoSetfl.Fresh table1 ∧
    envNoSetfl.setflOk = false ∧
    ((BinarySpec_createNonBlockingSocket envNoSock 2 1 table1).1 = -1 ∧
     (BinarySpec_createNonBlockingSocket envNoSetfl 2 1 table1).1 = -1) :=
  ⟨rfl, rfl, fresh_table1 envNoSetfl rfl, rfl,
   create_failures_return_minus_one envNoSock envNoSetfl 2 1 2 1 table1 table1 3
     rfl rfl (fresh_table1 envNoSetfl rfl) rfl⟩

/-- C5: when `socket` and the `F_SETFL` step both succeed, the function returns the
descriptor, which stays open, whatever the outcomes of the best-effort
`SO_REUSEADDR` and `SO_NOSIGPIPE` steps (`env.reuseAddrOk` and `env.noSigPipeOk`
are arbitrary here, and replacing them by any values never changes the returned
value): a best-effort failure never aborts construction, never closes the
descriptor, and never raises an error. -/
theorem create_best_effort_nonfatal (env : Env) (family type : Int) (s : OSState)
    (fd : Nat) (hfd : env.sockResult = some fd) (hfresh : env.Fresh s)
    (hset : env.setflOk = true) :
    (BinarySpec_createNonBlockingSocket env family type s).1 = (fd : Int) ∧
    0 ≤ (BinarySpec_createNonBlockingSocket env family type s).1 ∧
    ((BinarySpec_createNonBlockingSocket env family type s).2.1).isOpen fd = true ∧
    (∀ b₁ b₂ : Bool,
      (BinarySpec_createNonBlockingSocket
        { env with reuseAddrOk := b₁, noSigPipeOk := b₂ } family type s).1
        = (fd : Int)) := by
  rw [create_success env family type s fd hfd hfresh hset]
  refine ⟨rfl, by simp, ?_, ?_⟩
  · simp [OSState.isOpen, lookupFD_cons_self]
  · intro b₁ b₂
    rw [create_success { env with reuseAddrOk := b₁, noSigPipeOk := b₂ }
      family type s fd hfd hfresh hset]

/-- Witness for C5: both best-effort steps fail, yet descriptor 3 is returned open. -/
theorem create_best_effort_nonfatal_witness :
    envOptsFail.sockResult = some 3 ∧ envOptsFail.Fresh table1 ∧
    envOptsFail.setflOk = true ∧
    ((BinarySpec_createNonBlockingSocket envOptsFail 2 1 table1).1 = (3 : Int) ∧
     0 ≤ (BinarySpec_createNonBlockingSocket envOptsFail 2 1 table1).1 ∧
     ((BinarySpec_createNonBlockingSocket envOptsFail 2 1 table1).2.1).isOpen 3 = true ∧
     (∀ b₁ b₂ : Bool,
       (BinarySpec_createNonBlockingSocket
         { envOptsFail with reuseAddrOk := b₁, noSigPipeOk := b₂ } 2 1 table1).1
         = (3 : Int))) :=
  ⟨rfl, fresh_table1 envOptsFail rfl, rfl,
   create_best_effort_nonfatal envOptsFail 2 1 table1 3 rfl
     (fresh_table1 envOptsFail rfl) rfl⟩

/-- C6: no partial descriptor is ever returned: whenever the function returns a
success value (a non-negative descriptor), the `F_SETFL` configuration step
necessarily succeeded, the returned descriptor is open in the final table, and its
`O_NONBLOCK` bit is set. -/
theorem create_no_partial_descriptor (env : Env) (family type : Int) (s : OSState)
    (hfresh : env.Fresh s)
    (hok : 0 ≤ (BinarySpec_createNonBlockingSocket env family type s).1) :
    env.setflOk = true ∧
    ((BinarySpec_createNonBlockingSocket env family type s).2.1).isOpen
      (BinarySpec_createNonBlockingSocket env family type s).1.toNat = true ∧
    ∃ d, ((BinarySpec_createNonBlockingSocket env family type s).2.1).lookupFD
        (BinarySpec_createNonBlockingSocket env family type s).1.toNat = some d ∧
      d.statusFlags.testBit 2 = true := by
  cases hsr : env.sockResult with
  | none =>
    rw [create_sockFail env family type s hsr] at hok
    exact absurd hok (by norm_num)
  | some fd =>
    cases hset : env.setflOk with
    | false =>
      rw [create_setflFail env family type s fd hsr hfresh hset] at hok
      exact absurd hok (by norm_num)
    | true =>
      rw [create_success env family type s fd hsr hfresh hset]
      refine ⟨rfl, ?_, ⟨setflArg env, env.reuseAddrOk, env.noSigPipeOk⟩,
        lookupFD_cons_self fd _ s.fds, setflArg_testBit_two env⟩
      simp [OSState.isOpen, lookupFD_cons_self]

/-- Witness for C6: the all-success environment on a one-entry table. -/
theorem create_no_partial_descriptor_witness :
    envAllOk.Fresh table1 ∧
    0 ≤ (BinarySpec_createNonBlockingSocket envAllOk 2 1 table1).1 ∧
    (envAllOk.setflOk = true ∧
     ((BinarySpec_createNonBlockingSocket envAllOk 2 1 table1).2.1).isOpen
       (BinarySpec_createNonBlockingSocket envAllOk 2 1 table1).1.toNat = true ∧
     ∃ d, ((BinarySpec_createNonBlockingSocket envAllOk 2 1 table1).2.1).lookupFD
         (BinarySpec_createNonBlockingSocket envAllOk 2 1 table1).1.toNat = some d ∧
       d.statusFlags.testBit 2 = true) :=
  ⟨fresh_table1 envAllOk rfl, by decide,
   create_no_partial_descriptor envAllOk 2 1 table1 (fresh_table1 envAllOk rfl)
     (by decide)⟩

/-- C8: calls do not interfere: the embedding is a pure function of the per-call
environment and the descriptor table (the C function reads and writes no
program-level global state), the returned value does not depend on the pre-existing
table, and every descriptor other than the one this call allocates is left exactly
as it was. -/
theorem create_frame (env : Env) (family type : Int) (s s' : OSState)
    (hfresh : env.Fresh s) (hfresh' : env.Fresh s') :
    (∀ fd', (∀ fd, env.sockResult = some fd → fd' ≠ fd) →
      ((BinarySpec_createNonBlockingSocket env family type s).2.1).lookupFD fd'
        = s.lookupFD fd') ∧
    (BinarySpec_createNonBlockingSocket env family type s).1
      = (BinarySpec_createNonBlockingSocket env family type s').1 := by
  cases hsr : env.sockResult with
  | none =>
    rw [create_sockFail env family type s hsr, create_sockFail env family type s' hsr]
    exact ⟨fun _ _ => rfl, rfl⟩
  | some fd =>
    cases hset : env.setflOk with
    | false =>
      rw [create_setflFail env family type s fd hsr hfresh hset,
        create_setflFail env family type s' fd hsr hfresh' hset]
      exact ⟨fun _ _ => rfl, rfl⟩
    | true =>
      rw [create_success env family type s fd hsr hfresh hset,
        create_success env family type s' fd hsr hfresh' hset]
      refine ⟨?_, rfl⟩
      intro fd' hne'
      exact lookupFD_cons_ne fd fd' _ s.fds (hne' fd rfl)

/-- Witness for C8: descriptor 0 is untouched by a successful call allocating 3,
and the returned value is the same over a different table. -/
theorem create_frame_witness :
    envAllOk.Fresh table1 ∧ envAllOk.Fresh ⟨[]⟩ ∧
    ((BinarySpec_createNonBlockingSocket envAllOk 2 1 table1).2.1).lookupFD 0
      = table1.lookupFD 0 ∧
    (BinarySpec_createNonBlockingSocket envAllOk 2 1 table1).1
      = (BinarySpec_createNonBlockingSocket envAllOk 2 1 ⟨[]⟩).1 :=
  ⟨fresh_table1 envAllOk rfl, fresh_empty envAllOk,
   (create_frame envAllOk 2 1 table1 ⟨[]⟩ (fresh_table1 envAllOk rfl)
       (fresh_empty envAllOk)).1 0
     (by intro fd h; injection h with h; subst h; decide),
   (create_frame envAllOk 2 1 table1 ⟨[]⟩ (fresh_table1 envAllOk rfl)
       (fresh_empty envAllOk)).2⟩
